import Mathlib

/-!
Shallow embedding of the registry router (`go-micro` registry router package):
the advert engine's event aggregation, inbound advert processing, registry
sync (`manageRoute`, `manageRoutes`, `getDomain`, `watchRegistry`), and the
router facade's `Close`.  Pure Go functions become Lean functions; the
routing-table dependency (implemented outside the embedded file) is an
explicit operations record, instantiated with a table modelled from the spec.
-/

namespace RegRouter

/-- Table event types, `router.EventType` with values Create, Update, Delete. -/
inductive EventType where
  | create
  | update
  | delete
deriving DecidableEq

/-- Modelled from the spec: `router.EventType.String` (the `router` package is
not part of the embedded file); actions are the lowercase words
create / update / delete (spec section 4.4). -/
def EventType.string : EventType → String
  | .create => "create"
  | .update => "update"
  | .delete => "delete"

/-- `router.Route`: the addressable unit (spec section 3). -/
structure Route where
  service : String
  address : String
  gateway : String
  network : String
  router : String
  link : String
  metric : Int
  metadata : Option (List (String × String))
deriving DecidableEq

/-- Identity of a route: the six fingerprint-contributing fields. -/
abbrev Fingerprint := String × String × String × String × String × String

/-- Modelled from the spec: `router.Route.Hash` is a stable 64-bit hash over
`(Service, Address, Gateway, Network, Router, Link)` with
`Hash r1 = Hash r2` iff the six identity fields agree (P1); we model the
hash by the tuple of the six fields itself. -/
def Route.fingerprint (r : Route) : Fingerprint :=
  (r.service, r.address, r.gateway, r.network, r.router, r.link)

/-- `router.Event`: `{Type, Timestamp, Route}`; timestamps as naturals. -/
structure Event where
  type : EventType
  timestamp : Nat
  route : Route
deriving DecidableEq

/-- Advertising strategy, `router.Advertise{All,Best,Local,None}`. -/
inductive AdvertStrategy where
  | advertiseAll
  | advertiseBest
  | advertiseLocal
  | advertiseNone
deriving DecidableEq

/-- Advert type, `router.AdvertType` (Announce or RouteUpdate). -/
inductive AdvertType where
  | announce
  | routeUpdate
deriving DecidableEq

/-- `router.Advert`: `{Id, Type, TTL, Timestamp, Events}`. -/
structure Advert where
  id : String
  advType : AdvertType
  ttl : Nat
  timestamp : Nat
  events : List Event
deriving DecidableEq

/-- The advert engine's aggregation map `adverts map[uint64]*router.Event`
(part_000 line 396), as an association list keyed by fingerprint.  Go map
iteration order is unspecified; list order here is one concrete choice and
no theorem below depends on it. -/
abbrev AdvertsMap := List (Fingerprint × Event)

/-- `adverts[hash]` lookup. -/
def amLookup (m : AdvertsMap) (h : Fingerprint) : Option Event :=
  match m.find? (fun p => p.1 == h) with
  | some p => some p.2
  | none => none

/-- One iteration of the `case e := <-r.eventChan` branch of
`advertiseEvents` (part_000 lines 485-517).  `none` is a nil event
(line 487).  On lines 505-512 a missing fingerprint stores the event.  On
lines 514-517 the source runs `if ev.Type != e.Type { ev = e }`: the
assignment writes only the local variable `ev`, never `adverts[hash]`, so
when an entry already exists the map is left unchanged whatever the types
are. -/
def handleTableEvent (strategy : AdvertStrategy) (adverts : AdvertsMap)
    (e : Option Event) : AdvertsMap :=
  match e with
  | none => adverts
  | some e =>
    if strategy = AdvertStrategy.advertiseNone then adverts
    else if strategy = AdvertStrategy.advertiseLocal ∧ e.route.link ≠ "local" then adverts
    else
      match amLookup adverts e.route.fingerprint with
      | none => (e.route.fingerprint, e) :: adverts
      | some _ => adverts

/-- Deliver a sequence of table events to the aggregation map within one
tick window. -/
def deliverEvents (strategy : AdvertStrategy) (adverts : AdvertsMap)
    (es : List Event) : AdvertsMap :=
  es.foldl (fun m e => handleTableEvent strategy m (some e)) adverts

/-- The skip test of the tick branch (part_000 line 464): with
`AdvertiseLocal`, entries whose route is not link-local stay in the map. -/
def tickSkip (strategy : AdvertStrategy) (p : Fingerprint × Event) : Bool :=
  strategy == AdvertStrategy.advertiseLocal && p.2.route.link != "local"

/-- The `case <-ticker.C` branch of `advertiseEvents` (part_000 lines
453-484): with `AdvertiseNone` nothing is drained; otherwise every
non-skipped entry is copied out (structs are copied by value, line 469-472)
and deleted from the map, and the skipped entries remain. -/
def tickEvents (strategy : AdvertStrategy) (adverts : AdvertsMap) :
    List Event × AdvertsMap :=
  if strategy = AdvertStrategy.advertiseNone then ([], adverts)
  else ((adverts.filter (fun p => !tickSkip strategy p)).map (fun p => p.2),
        adverts.filter (tickSkip strategy))

/-- Table error sentinels (`router.ErrDuplicateRoute`, `router.ErrRouteNotFound`)
plus an arbitrary other failure. -/
inductive TableErr where
  | duplicateRoute
  | routeNotFound
  | failure (msg : String)
deriving DecidableEq

/-- Error text used when wrapping table errors into messages. -/
def TableErr.string : TableErr → String
  | .duplicateRoute => "duplicate route"
  | .routeNotFound => "route not found"
  | .failure m => m

/-- The routing-table interface as used by the embedded file: each mutation
returns the next table state and an optional error.  `rtr` only ever calls
`Create`, `Update`, `Delete` and `deleteService` on its table. -/
structure TableOps (σ : Type) where
  create : σ → Route → σ × Option TableErr
  update : σ → Route → σ × Option TableErr
  delete : σ → Route → σ × Option TableErr
  deleteService : σ → String → String → σ

/-- `rtr.manageRoute` (part_000 lines 118-137): `create` tolerates
`ErrDuplicateRoute`, `delete` tolerates `ErrRouteNotFound`, any other table
error and an unknown action are wrapped and returned. -/
def manageRoute {σ : Type} (T : TableOps σ) (st : σ) (route : Route)
    (action : String) : Except String σ :=
  if action = "create" then
    match T.create st route with
    | (st2, none) => Except.ok st2
    | (st2, some err) =>
      if err = TableErr.duplicateRoute then Except.ok st2
      else Except.error ("failed adding route for service " ++ route.service ++ ": " ++ err.string)
  else if action = "delete" then
    match T.delete st route with
    | (st2, none) => Except.ok st2
    | (st2, some err) =>
      if err = TableErr.routeNotFound then Except.ok st2
      else Except.error ("failed deleting route for service " ++ route.service ++ ": " ++ err.string)
  else if action = "update" then
    match T.update st route with
    | (st2, none) => Except.ok st2
    | (_, some err) =>
      Except.error ("failed updating route for service " ++ route.service ++ ": " ++ err.string)
  else
    Except.error ("failed to manage route for service " ++ route.service ++ ": unknown action " ++ action)

/-- Registry node: `registry.Node` restricted to the fields the embedded
file reads (`Address`, `Metadata`; a `none` metadata is a nil Go map). -/
structure Node where
  address : String
  metadata : Option (List (String × String))
deriving DecidableEq

/-- Registry service: `registry.Service` restricted to the fields the
embedded file reads. -/
structure Service where
  name : String
  metadata : Option (List (String × String))
  nodes : List Node
deriving DecidableEq

/-- Go map indexing `m[k]` on a possibly-nil string map: missing keys and
nil maps give the zero value `""`. -/
def metaValue (m : Option (List (String × String))) (key : String) : String :=
  match m with
  | none => ""
  | some kvs =>
    match kvs.find? (fun p => p.1 == key) with
    | some p => p.2
    | none => ""

/-- Modelled from the spec: `registry.DefaultDomain` (the `registry` package
is not part of the embedded file); the literal `"default"` (spec section 6,
domain resolution). -/
def DefaultDomain : String := "default"

/-- Modelled from the spec: `router.DefaultLink`, the link-local transport
class `"local"` (spec sections 3 and 8, scenario 1). -/
def DefaultLink : String := "local"

/-- Modelled from the spec: `router.DefaultLocalMetric`, the metric `1` of
scenario 1 `(auth, 10.0.0.1, -, default, self, local, 1)`. -/
def DefaultLocalMetric : Int := 1

/-- `getDomain` (part_000 lines 103-115). -/
def getDomain (srv : Service) : String :=
  if srv.metadata.isSome = true ∧ 0 < (metaValue srv.metadata "domain").length then
    metaValue srv.metadata "domain"
  else
    match srv.nodes with
    | node :: _ =>
      if node.metadata.isSome = true then metaValue node.metadata "domain"
      else DefaultDomain
    | [] => DefaultDomain

/-- `rtr.createRoutes` (part_000 lines 140-157): one route per node. -/
def createRoutes (id : String) (service : Service) (network : String) : List Route :=
  service.nodes.map (fun node =>
    { service := service.name
      address := node.address
      gateway := ""
      network := network
      router := id
      link := DefaultLink
      metric := DefaultLocalMetric
      metadata := node.metadata })

/-- The per-route loop of `manageRoutes` (part_000 lines 178-183): apply the
action to each route, aborting on the first error. -/
def applyRoutes {σ : Type} (T : TableOps σ) (action : String) :
    σ → List Route → Except String σ
  | st, [] => Except.ok st
  | st, route :: rest =>
    match manageRoute T st route action with
    | Except.ok st2 => applyRoutes T action st2 rest
    | Except.error e => Except.error e

/-- `strings.ToLower`: per-rune lowercasing of the action string. -/
def goToLower (s : String) : String := String.mk (s.data.map Char.toLower)

/-- `rtr.manageRoutes` (part_000 lines 161-186): lower-case the action; on a
delete with no projected routes wipe the whole service, otherwise apply the
action route by route. -/
def manageRoutes {σ : Type} (T : TableOps σ) (id : String) (st : σ)
    (service : Service) (action network : String) : Except String σ :=
  let act := goToLower action
  let routes := createRoutes id service network
  if act = "delete" ∧ routes.isEmpty = true then
    Except.ok (T.deleteService st service.name network)
  else applyRoutes T act st routes

/-- Comparison used by `sort.Slice` in `Process` (part_000 lines 682-684):
`events[i].Timestamp.Before(events[j].Timestamp)`. -/
def eventLe (x y : Event) : Bool := decide (x.timestamp ≤ y.timestamp)

/-- The timestamp sort of `Process`: `sort.Slice` guarantees a permutation
ordered by the comparison; modelled by `mergeSort` on `eventLe`. -/
def sortEvents (es : List Event) : List Event := es.mergeSort eventLe

/-- The two event slices alive during `Process` (part_000 lines 679-684):
the array backing `a.Events` and the freshly allocated `events` slice. -/
structure ProcessSlices where
  aEvents : List Event
  events : List Event
deriving DecidableEq

/-- Lines 679-680: `events := make([]*router.Event, len(a.Events))` followed
by `copy(events, a.Events)` — a new array holding the same pointers. -/
def allocAndCopy (s : List Event) : ProcessSlices :=
  { aEvents := s, events := s }

/-- Lines 682-684: `sort.Slice(events, ...)` sorts the array backing
`events` in place; after the `make`, that array is distinct from the one
backing `a.Events`, which is untouched. -/
def sortSlice (p : ProcessSlices) : ProcessSlices :=
  { aEvents := p.aEvents, events := sortEvents p.events }

/-- The slice phase of `Process` (copy then sort). -/
def processSlicePhase (s : List Event) : ProcessSlices :=
  sortSlice (allocAndCopy s)

/-- The event loop of `Process` (part_000 lines 690-709): skip events
originated by this router, otherwise apply them via `manageRoute`, wrapping
and returning the first failure. -/
def applyEvents {σ : Type} (T : TableOps σ) (id : String) :
    σ → List Event → Except String σ
  | st, [] => Except.ok st
  | st, e :: rest =>
    if e.route.router = id then applyEvents T id st rest
    else
      match manageRoute T st e.route e.type.string with
      | Except.ok st2 => applyEvents T id st2 rest
      | Except.error msg =>
        Except.error ("failed applying action " ++ e.type.string ++ " to routing table: " ++ msg)

/-- `rtr.Process` (part_000 lines 676-712). -/
def Process {σ : Type} (T : TableOps σ) (id : String) (st : σ) (a : Advert) :
    Except String σ :=
  applyEvents T id st (processSlicePhase a.events).events

/-- Modelled from the spec: the routing table state (the table file is not
part of the embedded file): the set of live routes, keyed by fingerprint
(I1), together with the log of emitted events (I3), oldest first. -/
structure Table where
  routes : List Route
  log : List (EventType × Route)
deriving DecidableEq

/-- Modelled from the spec: `table.Create` (section 4.2) fails with
`ErrDuplicateRoute` when the fingerprint is present, otherwise inserts and
emits `Create`. -/
def Table.create (t : Table) (r : Route) : Table × Option TableErr :=
  if t.routes.any (fun x => x.fingerprint == r.fingerprint) then
    (t, some TableErr.duplicateRoute)
  else ({ routes := t.routes ++ [r], log := t.log ++ [(EventType.create, r)] }, none)

/-- Modelled from the spec: `table.Update` (section 4.2) overwrites a
present route and emits `Update`, and falls back to `Create` when absent. -/
def Table.update (t : Table) (r : Route) : Table × Option TableErr :=
  if t.routes.any (fun x => x.fingerprint == r.fingerprint) then
    ({ routes := t.routes.map (fun x => if x.fingerprint == r.fingerprint then r else x)
       log := t.log ++ [(EventType.update, r)] }, none)
  else ({ routes := t.routes ++ [r], log := t.log ++ [(EventType.create, r)] }, none)

/-- Modelled from the spec: `table.Delete` (section 4.2) removes by
fingerprint, emitting `Delete`, and fails with `ErrRouteNotFound` when
absent. -/
def Table.delete (t : Table) (r : Route) : Table × Option TableErr :=
  if t.routes.any (fun x => x.fingerprint == r.fingerprint) then
    ({ routes := t.routes.filter (fun x => !(x.fingerprint == r.fingerprint))
       log := t.log ++ [(EventType.delete, r)] }, none)
  else (t, some TableErr.routeNotFound)

/-- Service/network match used by `deleteService`; the wildcard `"*"`
matches any (spec sections 3 and 4.2). -/
def serviceMatches (service network : String) (r : Route) : Bool :=
  r.service == service && (r.network == network || r.network == "*" || network == "*")

/-- Modelled from the spec: `table.deleteService` (section 4.2) removes all
routes with matching service and network and emits `Delete` for each
removed route. -/
def Table.deleteService (t : Table) (service network : String) : Table :=
  { routes := t.routes.filter (fun r => !serviceMatches service network r)
    log := t.log ++ (t.routes.filter (serviceMatches service network)).map
      (fun r => (EventType.delete, r)) }

/-- The spec-modelled table packaged as the operations record `rtr` calls. -/
def specTable : TableOps Table :=
  { create := Table.create
    update := Table.update
    delete := Table.delete
    deleteService := Table.deleteService }

/-- The empty table. -/
def emptyTable : Table := { routes := [], log := [] }

/-- One registry watch result `registry.Result` (`Action`, `Service`); a
`none` service is a nil pointer. -/
structure WatchResult where
  action : String
  service : Option Service
deriving DecidableEq

/-- One outcome of `w.Next()` in `watchRegistry`: a result, the clean
`ErrWatcherStopped` sentinel, or another error. -/
inductive NextOutcome where
  | res (r : WatchResult)
  | stopped
  | failed (msg : String)
deriving DecidableEq

/-- The loop of `rtr.watchRegistry` (part_000 lines 303-327) over a stream
of `Next` outcomes: non-stop errors are returned, stop breaks the loop,
nil services are skipped (line 314), and others are routed through
`manageRoutes` with the resolved domain, returning its first error. -/
def watchRegistryLoop {σ : Type} (T : TableOps σ) (id : String) :
    σ → List NextOutcome → Except String σ
  | st, [] => Except.ok st
  | _, NextOutcome.failed msg :: _ => Except.error msg
  | st, NextOutcome.stopped :: _ => Except.ok st
  | st, NextOutcome.res r :: rest =>
    match r.service with
    | none => watchRegistryLoop T id st rest
    | some srv =>
      match manageRoutes T id st srv r.action (getDomain srv) with
      | Except.ok st2 => watchRegistryLoop T id st2 rest
      | Except.error e => Except.error e

/-- Router facade state relevant to `Close` (part_000 lines 28-41):
`running`, whether the exit channel has been closed, the event channel with
its buffered events (`none` is a nil channel), and the subscriber ids. -/
structure RtrState where
  running : Bool
  exitClosed : Bool
  eventChan : Option (List Event)
  subscribers : List String
deriving DecidableEq

/-- `rtr.drain` (part_000 lines 528-536): empty the buffered events. -/
def drainRtr (r : RtrState) : RtrState :=
  match r.eventChan with
  | some _ => { r with eventChan := some [] }
  | none => r

/-- `rtr.Close` (part_000 lines 759-794): return nil at once when the exit
channel is already closed or the router is not running; otherwise close the
exit channel, drain buffered events, close and remove every subscriber,
close and remove the event channel, and clear `running`.  The returned
error is always nil. -/
def closeRtr (r : RtrState) : RtrState × Option String :=
  if r.exitClosed = true then (r, none)
  else if r.running = false then (r, none)
  else
    let r1 : RtrState := { r with exitClosed := true }
    let r2 := drainRtr r1
    let r3 : RtrState := { r2 with subscribers := [] }
    let r4 : RtrState :=
      if r3.eventChan.isSome = true then { r3 with eventChan := none } else r3
    ({ r4 with running := false }, none)

/-- A sample link-local route used by concrete evaluations. -/
def sampleRoute : Route :=
  { service := "svc"
    address := "10.0.0.1"
    gateway := ""
    network := "default"
    router := "peer-1"
    link := "local"
    metric := 1
    metadata := none }

/-- A `cart` route in network `prod` at the given address (spec scenario 3). -/
def cartRoute (addr : String) : Route :=
  { service := "cart"
    address := addr
    gateway := ""
    network := "prod"
    router := "self"
    link := "local"
    metric := 1
    metadata := none }

/-- A table holding three `cart` routes under `prod` (spec scenario 3). -/
def cartTable : Table :=
  { routes := [cartRoute "10.0.0.1", cartRoute "10.0.0.2", cartRoute "10.0.0.3"]
    log := [] }

/-- The registry watch payload of scenario 3: `cart` with no nodes left. -/
def cartGoneService : Service :=
  { name := "cart", metadata := none, nodes := [] }

/-- Service with a domain in its own metadata. -/
def srvWithOwnDomain : Service :=
  { name := "a", metadata := some [("domain", "prod")], nodes := [] }

/-- Service whose domain only appears on its first node's metadata. -/
def srvWithNodeDomain : Service :=
  { name := "b", metadata := none
    nodes := [{ address := "10.0.0.9", metadata := some [("domain", "dev")] }] }

/-- Service with no domain metadata anywhere. -/
def srvWithoutDomain : Service :=
  { name := "c", metadata := none, nodes := [] }

/-- If the aggregation map already holds an entry for the incoming event's
fingerprint, the map is left unchanged (part_000 lines 505-517: the
assignment `ev = e` writes the local variable only). -/
theorem handleTableEvent_existing (s : AdvertStrategy) (m : AdvertsMap)
    (e ev : Event) (h : amLookup m e.route.fingerprint = some ev) :
    handleTableEvent s m (some e) = m := by
  simp only [handleTableEvent]
  rw [h]
  split
  · rfl
  · split
    · rfl
    · rfl

/-- A non-skipped event with an unregistered fingerprint is stored. -/
theorem handleTableEvent_insert (s : AdvertStrategy) (m : AdvertsMap) (e : Event)
    (h1 : s ≠ AdvertStrategy.advertiseNone)
    (h2 : s = AdvertStrategy.advertiseLocal → e.route.link = "local")
    (h3 : amLookup m e.route.fingerprint = none) :
    handleTableEvent s m (some e) = (e.route.fingerprint, e) :: m := by
  simp only [handleTableEvent]
  rw [if_neg h1, if_neg (by rintro ⟨hl, hne⟩; exact hne (h2 hl)), h3]

/-- Delivering events whose fingerprints are all already registered leaves
the aggregation map unchanged. -/
theorem deliverEvents_unchanged (s : AdvertStrategy) (m : AdvertsMap) :
    ∀ es : List Event, (∀ e ∈ es, (amLookup m e.route.fingerprint).isSome = true) →
    deliverEvents s m es = m
  | [], _ => rfl
  | e :: es, h => by
    obtain ⟨ev, hev⟩ := Option.isSome_iff_exists.mp (h e (List.mem_cons_self e es))
    show deliverEvents s (handleTableEvent s m (some e)) es = m
    rw [handleTableEvent_existing s m e ev hev]
    exact deliverEvents_unchanged s m es (fun x hx => h x (List.mem_cons_of_mem e hx))

/-- Looking up the fingerprint just stored finds it. -/
theorem amLookup_cons_self (m : AdvertsMap) (fp : Fingerprint) (e : Event) :
    amLookup ((fp, e) :: m) fp = some e := by
  simp [amLookup, List.find?]

/-- C1.  The claim reads the spec's replace rule into the code: after
`Update, Update, Delete` for one fingerprint within a tick window, the next
tick's advert should hold exactly one event for the fingerprint with type
`Delete`.  The code keeps the first event instead: at part_000 line 516 the
assignment `ev = e` writes only the local variable `ev` and `adverts[hash]`
is never overwritten, so the drained advert carries the initial `Update`. -/
theorem c1_advert_keeps_first_event_despite_delete :
    (tickEvents AdvertStrategy.advertiseAll
      (deliverEvents AdvertStrategy.advertiseAll []
        [⟨EventType.update, 1, sampleRoute⟩, ⟨EventType.update, 2, sampleRoute⟩,
         ⟨EventType.delete, 3, sampleRoute⟩])).1
      = [⟨EventType.update, 1, sampleRoute⟩] ∧
    EventType.update ≠ EventType.delete := by
  constructor
  · rfl
  · decide

/-- C2.  Flap suppression: delivering a first event `e0` followed by any
events of the same type for the same fingerprint within one tick window
leaves exactly one entry for that fingerprint in the aggregation map — the
first event received — and the advert drained at the next tick carries
exactly one outbound event for that fingerprint, namely `e0`. -/
theorem c2_same_type_events_collapse_to_first
    (s : AdvertStrategy) (e0 : Event) (rest : List Event) (t : EventType)
    (_h0 : e0.type = t)
    (hrest : ∀ e ∈ rest, e.route.fingerprint = e0.route.fingerprint ∧ e.type = t)
    (hs1 : s ≠ AdvertStrategy.advertiseNone)
    (hs2 : s = AdvertStrategy.advertiseLocal → e0.route.link = "local") :
    deliverEvents s [] (e0 :: rest) = [(e0.route.fingerprint, e0)] ∧
    (tickEvents s (deliverEvents s [] (e0 :: rest))).1 = [e0] := by
  have hmain : deliverEvents s [] (e0 :: rest) = [(e0.route.fingerprint, e0)] := by
    show deliverEvents s (handleTableEvent s [] (some e0)) rest = _
    rw [handleTableEvent_insert s [] e0 hs1 hs2 rfl]
    exact deliverEvents_unchanged s _ rest (fun e he => by
      rw [(hrest e he).1, amLookup_cons_self]
      rfl)
  have hskip : tickSkip s (e0.route.fingerprint, e0) = false := by
    unfold tickSkip
    by_cases h : s = AdvertStrategy.advertiseLocal
    · subst h
      simp [hs2 rfl]
    · simp [h]
  refine ⟨hmain, ?_⟩
  rw [hmain]
  unfold tickEvents
  rw [if_neg hs1]
  simp [List.filter, hskip]

/-- Witness for C2 at a concrete input: three successive `Update` events
for one link-local route, strategy `AdvertiseAll`. -/
theorem c2_collapse_witness :
    deliverEvents AdvertStrategy.advertiseAll []
      [⟨EventType.update, 1, sampleRoute⟩, ⟨EventType.update, 2, sampleRoute⟩,
       ⟨EventType.update, 3, sampleRoute⟩]
      = [(sampleRoute.fingerprint, ⟨EventType.update, 1, sampleRoute⟩)] ∧
    (tickEvents AdvertStrategy.advertiseAll
      (deliverEvents AdvertStrategy.advertiseAll []
        [⟨EventType.update, 1, sampleRoute⟩, ⟨EventType.update, 2, sampleRoute⟩,
         ⟨EventType.update, 3, sampleRoute⟩])).1
      = [⟨EventType.update, 1, sampleRoute⟩] :=
  c2_same_type_events_collapse_to_first AdvertStrategy.advertiseAll
    ⟨EventType.update, 1, sampleRoute⟩
    [⟨EventType.update, 2, sampleRoute⟩, ⟨EventType.update, 3, sampleRoute⟩]
    EventType.update rfl (by decide) (by decide) (by decide)

/-- Applying a list of events all originated by this router touches nothing:
every iteration takes the skip branch of part_000 lines 691-697. -/
theorem applyEvents_skip_all {σ : Type} (T : TableOps σ) (id : String) (st : σ) :
    ∀ es : List Event, (∀ e ∈ es, e.route.router = id) →
    applyEvents T id st es = Except.ok st
  | [], _ => rfl
  | e :: es, h => by
    show (if e.route.router = id then applyEvents T id st es else _) = _
    rw [if_pos (h e (List.mem_cons_self e es))]
    exact applyEvents_skip_all T id st es (fun x hx => h x (List.mem_cons_of_mem e hx))

/-- `eventLe` is transitive. -/
theorem eventLe_trans : ∀ a b c : Event, eventLe a b → eventLe b c → eventLe a c := by
  intro a b c h1 h2
  simp only [eventLe, decide_eq_true_eq] at h1 h2 ⊢
  exact Nat.le_trans h1 h2

/-- `eventLe` is total. -/
theorem eventLe_total : ∀ a b : Event, eventLe a b || eventLe b a := by
  intro a b
  simp only [eventLe, Bool.or_eq_true, decide_eq_true_eq]
  exact Nat.le_total a.timestamp b.timestamp

/-- C3.  Loop prevention: `Process` skips every event whose `Route.Router`
is this router's id; when every event of the advert is self-originated, no
table operation is invoked — for an arbitrary table the state comes back
untouched — and the call returns success. -/
theorem c3_process_skips_own_events {σ : Type} (T : TableOps σ) (id : String)
    (st : σ) (a : Advert) (h : ∀ e ∈ a.events, e.route.router = id) :
    Process T id st a = Except.ok st := by
  apply applyEvents_skip_all
  intro e he
  exact h e (List.mem_mergeSort.mp he)

/-- Witness for C3 at a concrete input: an advert holding two events both
authored by router `"peer-1"`, processed by that same router over the
spec-modelled table. -/
theorem c3_skip_witness :
    Process specTable "peer-1" emptyTable
      { id := "peer-1", advType := AdvertType.routeUpdate, ttl := 120,
        timestamp := 5,
        events := [⟨EventType.create, 2, sampleRoute⟩, ⟨EventType.delete, 1, sampleRoute⟩] }
      = Except.ok emptyTable :=
  c3_process_skips_own_events specTable "peer-1" emptyTable
    { id := "peer-1", advType := AdvertType.routeUpdate, ttl := 120,
      timestamp := 5,
      events := [⟨EventType.create, 2, sampleRoute⟩, ⟨EventType.delete, 1, sampleRoute⟩] }
    (by decide)

/-- C4.  `Process` applies the advert's events in non-decreasing `Timestamp`
order: the applied sequence is exactly `sortEvents a.events`, which is a
permutation of `a.Events` sorted by timestamp, whatever order the events
appear in `a.Events`. -/
theorem c4_process_sorts_events_by_timestamp {σ : Type} (T : TableOps σ)
    (id : String) (st : σ) (a : Advert) :
    Process T id st a = applyEvents T id st (sortEvents a.events) ∧
    List.Pairwise (fun x y : Event => x.timestamp ≤ y.timestamp) (sortEvents a.events) ∧
    List.Perm (sortEvents a.events) a.events := by
  refine ⟨rfl, ?_, List.mergeSort_perm a.events eventLe⟩
  have hs := List.sorted_mergeSort eventLe_trans eventLe_total a.events
  exact hs.imp (fun h => by simpa [eventLe] using h)

/-- C9.  `Process` does not mutate its argument: the sort runs on the
freshly allocated copy (`allocAndCopy` then `sortSlice`), so the array
backing `a.Events` still holds the same event pointers in the same order
after the slice phase, while the sorted copy — a permutation — is what the
event loop consumes. -/
theorem c9_process_preserves_advert_events (es : List Event) :
    (processSlicePhase es).aEvents = es ∧
    List.Perm (processSlicePhase es).events es ∧
    (∀ (σ : Type) (T : TableOps σ) (id : String) (st : σ) (a : Advert),
      Process T id st a = applyEvents T id st (processSlicePhase a.events).events) :=
  ⟨rfl, List.mergeSort_perm es eventLe, fun _ _ _ _ _ => rfl⟩

/-- C5.  On a registry `delete` whose projected route set is empty (no nodes
remain), `manageRoutes` wipes the whole service via `deleteService` and
returns success: every route matching the service and network is removed
and one `Delete` event is emitted per removed route. -/
theorem c5_delete_with_no_nodes_wipes_service
    (id : String) (t : Table) (srv : Service) (action network : String)
    (ha : goToLower action = "delete") (hn : srv.nodes = []) :
    manageRoutes specTable id t srv action network =
      Except.ok
        { routes := t.routes.filter (fun r => !serviceMatches srv.name network r)
          log := t.log ++ (t.routes.filter (serviceMatches srv.name network)).map
            (fun r => (EventType.delete, r)) } := by
  have hroutes : createRoutes id srv network = [] := by
    simp [createRoutes, hn]
  show (if goToLower action = "delete" ∧ (createRoutes id srv network).isEmpty = true
        then Except.ok (TableOps.deleteService specTable t srv.name network)
        else applyRoutes specTable (goToLower action) t (createRoutes id srv network)) = _
  rw [if_pos ⟨ha, by rw [hroutes]; rfl⟩]
  rfl

/-- Witness for C5 at the spec's scenario 3: `cart` is deleted with no
nodes in network `prod` while the table holds three `cart/prod` routes; all
three are removed and three `Delete` events are emitted. -/
theorem c5_wipe_witness :
    manageRoutes specTable "self" cartTable cartGoneService "delete" "prod" =
      Except.ok
        { routes := []
          log := [(EventType.delete, cartRoute "10.0.0.1"),
                  (EventType.delete, cartRoute "10.0.0.2"),
                  (EventType.delete, cartRoute "10.0.0.3")] } := by
  rw [c5_delete_with_no_nodes_wipes_service "self" cartTable cartGoneService
    "delete" "prod" (by decide) rfl]
  rfl

/-- C6.  `manageRoute` error policy, for an arbitrary table: `create`
absorbs `ErrDuplicateRoute`, `delete` absorbs `ErrRouteNotFound`, any other
table error — including any error from `update` — and an unknown action are
wrapped and returned; and inside `Process` a failing `manageRoute` aborts
the advert's event loop with the wrapped error. -/
theorem c6_manage_route_error_policy {σ : Type} (T : TableOps σ) (st : σ)
    (route : Route) :
    (∀ st2, T.create st route = (st2, none) →
        manageRoute T st route "create" = Except.ok st2) ∧
    (∀ st2, T.create st route = (st2, some TableErr.duplicateRoute) →
        manageRoute T st route "create" = Except.ok st2) ∧
    (∀ st2 err, T.create st route = (st2, some err) → err ≠ TableErr.duplicateRoute →
        ∃ msg, manageRoute T st route "create" = Except.error msg) ∧
    (∀ st2, T.delete st route = (st2, none) →
        manageRoute T st route "delete" = Except.ok st2) ∧
    (∀ st2, T.delete st route = (st2, some TableErr.routeNotFound) →
        manageRoute T st route "delete" = Except.ok st2) ∧
    (∀ st2 err, T.delete st route = (st2, some err) → err ≠ TableErr.routeNotFound →
        ∃ msg, manageRoute T st route "delete" = Except.error msg) ∧
    (∀ st2 err, T.update st route = (st2, some err) →
        ∃ msg, manageRoute T st route "update" = Except.error msg) ∧
    (∀ action, action ≠ "create" → action ≠ "delete" → action ≠ "update" →
        ∃ msg, manageRoute T st route action = Except.error msg) ∧
    (∀ (id : String) (e : Event) (rest : List Event) (msg : String),
        e.route.router ≠ id →
        manageRoute T st e.route e.type.string = Except.error msg →
        applyEvents T id st (e :: rest) =
          Except.error ("failed applying action " ++ e.type.string ++
            " to routing table: " ++ msg)) := by
  refine ⟨?_, ?_, ?_, ?_, ?_, ?_, ?_, ?_, ?_⟩
  · intro st2 h
    unfold manageRoute
    rw [if_pos rfl, h]
  · intro st2 h
    unfold manageRoute
    rw [if_pos rfl, h]
    rfl
  · intro st2 err h hne
    unfold manageRoute
    rw [if_pos rfl, h]
    refine ⟨"failed adding route for service " ++ route.service ++ ": " ++ err.string, ?_⟩
    show (if err = TableErr.duplicateRoute then Except.ok st2
          else Except.error ("failed adding route for service " ++ route.service ++
            ": " ++ err.string)) = _
    rw [if_neg hne]
  · intro st2 h
    unfold manageRoute
    rw [if_neg (by decide), if_pos rfl, h]
  · intro st2 h
    unfold manageRoute
    rw [if_neg (by decide), if_pos rfl, h]
    rfl
  · intro st2 err h hne
    unfold manageRoute
    rw [if_neg (by decide), if_pos rfl, h]
    refine ⟨"failed deleting route for service " ++ route.service ++ ": " ++ err.string, ?_⟩
    show (if err = TableErr.routeNotFound then Except.ok st2
          else Except.error ("failed deleting route for service " ++ route.service ++
            ": " ++ err.string)) = _
    rw [if_neg hne]
  · intro st2 err h
    unfold manageRoute
    rw [if_neg (by decide), if_neg (by decide), if_pos rfl, h]
    exact ⟨_, rfl⟩
  · intro action h1 h2 h3
    unfold manageRoute
    rw [if_neg h1, if_neg h2, if_neg h3]
    exact ⟨_, rfl⟩
  · intro id e rest msg h1 h2
    show (if e.route.router = id then applyEvents T id st rest
          else match manageRoute T st e.route e.type.string with
               | Except.ok st2 => applyEvents T id st2 rest
               | Except.error m =>
                 Except.error ("failed applying action " ++ e.type.string ++
                   " to routing table: " ++ m)) = _
    rw [if_neg h1, h2]

/-- Witness for C6 at concrete inputs over the spec-modelled table: a
successful create goes through, and an unknown action string fails. -/
theorem c6_policy_witness :
    manageRoute specTable emptyTable sampleRoute "create" =
      Except.ok { routes := [sampleRoute], log := [(EventType.create, sampleRoute)] } ∧
    (∃ msg, manageRoute specTable emptyTable sampleRoute "noop" = Except.error msg) :=
  ⟨(c6_manage_route_error_policy specTable emptyTable sampleRoute).1
      { routes := [sampleRoute], log := [(EventType.create, sampleRoute)] } (by decide),
   (c6_manage_route_error_policy specTable emptyTable sampleRoute).2.2.2.2.2.2.2.1
      "noop" (by decide) (by decide) (by decide)⟩

/-- A non-empty string has positive length. -/
theorem length_pos_of_ne_empty {s : String} (h : s ≠ "") : 0 < s.length := by
  cases s with
  | mk data =>
    cases data with
    | nil => exact absurd rfl h
    | cons c cs => simp [String.length]

/-- C7.  Domain resolution precedence of `getDomain`: a non-empty
`service.Metadata["domain"]` wins; otherwise the first node's metadata is
consulted when present; otherwise the literal `"default"` is returned. -/
theorem c7_get_domain_precedence (srv : Service) :
    (metaValue srv.metadata "domain" ≠ "" →
        getDomain srv = metaValue srv.metadata "domain") ∧
    (∀ node rest, metaValue srv.metadata "domain" = "" →
        srv.nodes = node :: rest → node.metadata.isSome = true →
        getDomain srv = metaValue node.metadata "domain") ∧
    (metaValue srv.metadata "domain" = "" → srv.nodes = [] →
        getDomain srv = "default") ∧
    (∀ node rest, metaValue srv.metadata "domain" = "" →
        srv.nodes = node :: rest → node.metadata = none →
        getDomain srv = "default") := by
  have hneg : metaValue srv.metadata "domain" = "" →
      ¬(srv.metadata.isSome = true ∧ 0 < (metaValue srv.metadata "domain").length) := by
    intro h hc
    rw [h] at hc
    exact absurd hc.2 (by decide)
  refine ⟨?_, ?_, ?_, ?_⟩
  · intro h
    have hsome : srv.metadata.isSome = true := by
      cases hm : srv.metadata with
      | none => rw [hm] at h; exact absurd rfl h
      | some m => rfl
    unfold getDomain
    rw [if_pos ⟨hsome, length_pos_of_ne_empty h⟩]
  · intro node rest h hnodes hsome
    unfold getDomain
    rw [if_neg (hneg h), hnodes]
    show (if node.metadata.isSome = true then metaValue node.metadata "domain"
          else DefaultDomain) = _
    rw [if_pos hsome]
  · intro h hempty
    unfold getDomain
    rw [if_neg (hneg h), hempty]
    rfl
  · intro node rest h hnodes hnone
    unfold getDomain
    rw [if_neg (hneg h), hnodes]
    show (if node.metadata.isSome = true then metaValue node.metadata "domain"
          else DefaultDomain) = _
    rw [if_neg (by rw [hnone]; decide)]
    rfl

/-- Witness for C7 at three concrete services, one per precedence level. -/
theorem c7_domain_witness :
    getDomain srvWithOwnDomain = "prod" ∧
    getDomain srvWithNodeDomain = "dev" ∧
    getDomain srvWithoutDomain = "default" :=
  ⟨((c7_get_domain_precedence srvWithOwnDomain).1 (by decide)).trans (by decide),
   ((c7_get_domain_precedence srvWithNodeDomain).2.1
      { address := "10.0.0.9", metadata := some [("domain", "dev")] } [] (by decide)
      rfl (by decide)).trans (by decide),
   (c7_get_domain_precedence srvWithoutDomain).2.2.1 (by decide) rfl⟩

/-- C8.  `Close` always returns nil; a call on an already-closed router
(exit channel closed or not running) changes nothing; and a second `Close`
after any first one is a no-op returning nil. -/
theorem c8_close_returns_nil_and_idempotent (r : RtrState) :
    (closeRtr r).2 = none ∧
    (r.exitClosed = true ∨ r.running = false → closeRtr r = (r, none)) ∧
    closeRtr (closeRtr r).1 = ((closeRtr r).1, none) := by
  have hnil : ∀ s : RtrState, (closeRtr s).2 = none := by
    intro s
    unfold closeRtr
    split
    · rfl
    · split
      · rfl
      · rfl
  have hidem : ∀ s : RtrState, s.exitClosed = true ∨ s.running = false →
      closeRtr s = (s, none) := by
    intro s hs
    unfold closeRtr
    rcases hs with h | h
    · rw [if_pos h]
    · by_cases h1 : s.exitClosed = true
      · rw [if_pos h1]
      · rw [if_neg h1, if_pos h]
  have hstate : ∀ s : RtrState,
      (closeRtr s).1.exitClosed = true ∨ (closeRtr s).1.running = false := by
    intro s
    unfold closeRtr
    split
    next h => exact Or.inl h
    next h =>
      split
      next h2 => exact Or.inr h2
      next h2 => exact Or.inr rfl
  exact ⟨hnil r, hidem r, hidem (closeRtr r).1 (hstate r)⟩

/-- Witness for C8 at a concrete already-closed router state. -/
theorem c8_close_witness :
    closeRtr { running := false, exitClosed := true, eventChan := none, subscribers := [] } =
      ({ running := false, exitClosed := true, eventChan := none, subscribers := [] }, none) :=
  (c8_close_returns_nil_and_idempotent
    { running := false, exitClosed := true, eventChan := none, subscribers := [] }).2.1
    (Or.inl rfl)

/-- C10.  A registry watch result with a nil `Service` causes no table
mutation and the watch loop continues with the remaining results. -/
theorem c10_watch_skips_nil_service {σ : Type} (T : TableOps σ) (id : String)
    (st : σ) (res : WatchResult) (rest : List NextOutcome)
    (h : res.service = none) :
    watchRegistryLoop T id st (NextOutcome.res res :: rest) =
      watchRegistryLoop T id st rest := by
  show (match res.service with
        | none => watchRegistryLoop T id st rest
        | some srv =>
          match manageRoutes T id st srv res.action (getDomain srv) with
          | Except.ok st2 => watchRegistryLoop T id st2 rest
          | Except.error e => Except.error e) = watchRegistryLoop T id st rest
  rw [h]

/-- Witness for C10 at a concrete nil-service watch result. -/
theorem c10_nil_witness :
    watchRegistryLoop specTable "self" emptyTable
      [NextOutcome.res { action := "create", service := none }] =
    watchRegistryLoop specTable "self" emptyTable [] :=
  c10_watch_skips_nil_service specTable "self" emptyTable
    { action := "create", service := none } [] rfl

end RegRouter
